import Mathlib

/-!
# Verification of the `modules/open_digraph.py` graph library

A shallow embedding of the open-digraph data model and the operations the
specification's claims are about.  Python dicts are modelled as insertion-order
association lists (`PyDict`): updating an existing key keeps its position,
inserting a fresh key appends at the end, deleting removes the entry — exactly
CPython's observable dict semantics.  Python exceptions are modelled with
`Except String`; loops without a structural termination measure take explicit
fuel, with `none` standing for divergence.  Node ids and multiplicities are
Python integers, modelled as `Int`.
-/

set_option linter.unusedVariables false

/-- Insertion-ordered association list standing for a Python `dict` with
integer keys. -/
abbrev PyDict (α : Type) : Type := List (Int × α)

/-- `d[k]` as a partial lookup: first entry whose key is `k`. -/
def dictGet? {α : Type} (d : PyDict α) (k : Int) : Option α :=
  match d with
  | [] => none
  | (k0, v) :: rest => if k0 = k then some v else dictGet? rest k

/-- `d[k] = v`: replace in place if the key is present, else append at the
end, as a Python dict does. -/
def dictSet {α : Type} (d : PyDict α) (k : Int) (v : α) : PyDict α :=
  match d with
  | [] => [(k, v)]
  | (k0, v0) :: rest =>
      if k0 = k then (k0, v) :: rest else (k0, v0) :: dictSet rest k v

/-- `del d[k]` (no-op when the key is absent, callers guard membership). -/
def dictErase {α : Type} (d : PyDict α) (k : Int) : PyDict α :=
  d.filter (fun p => p.1 ≠ k)

/-- `list(d.keys())`, in insertion order. -/
def dictKeys {α : Type} (d : PyDict α) : List Int :=
  d.map Prod.fst

/-- `k in d`. -/
def dictMem {α : Type} (d : PyDict α) (k : Int) : Prop :=
  k ∈ dictKeys d

instance {α : Type} (d : PyDict α) (k : Int) : Decidable (dictMem d k) := by
  unfold dictMem; infer_instance

/-- Python `list.remove`: drop the first occurrence (total here; every call
site removes an element known to be present). -/
def removeFirst (l : List Int) (x : Int) : List Int :=
  match l with
  | [] => []
  | y :: rest => if y = x then rest else y :: removeFirst rest x

/-- `set.add` on a set modelled as a duplicate-free list in insertion order. -/
def setInsert (l : List Int) (x : Int) : List Int :=
  if x ∈ l then l else l ++ [x]

/-- `set(l)`: deduplicate keeping first occurrences. -/
def setOfList (l : List Int) : List Int :=
  l.foldl setInsert []

/-- A node of the multigraph: `Node.__init__` stores an id, a label and the
two multiplicity maps (neighbour id → number of parallel edges). -/
structure Node where
  id : Int
  label : String
  parents : PyDict Int
  children : PyDict Int
deriving DecidableEq, Repr

/-- `Node.add_parent_id`: bump the multiplicity, or insert it at 1. -/
def addParentId (n : Node) (parentId : Int) : Node :=
  match dictGet? n.parents parentId with
  | some m => { n with parents := dictSet n.parents parentId (m + 1) }
  | none => { n with parents := dictSet n.parents parentId 1 }

/-- `Node.add_child_id`: bump the multiplicity, or insert it at 1. -/
def addChildId (n : Node) (childId : Int) : Node :=
  match dictGet? n.children childId with
  | some m => { n with children := dictSet n.children childId (m + 1) }
  | none => { n with children := dictSet n.children childId 1 }

/-- `Node.remove_parent_once`: decrement, deleting the key at multiplicity
`<= 1`; no-op when absent. -/
def removeParentOnce (n : Node) (identity : Int) : Node :=
  match dictGet? n.parents identity with
  | some m =>
      if m ≤ 1 then { n with parents := dictErase n.parents identity }
      else { n with parents := dictSet n.parents identity (m - 1) }
  | none => n

/-- `Node.remove_child_once`: decrement, deleting the key at multiplicity
`<= 1`; no-op when absent. -/
def removeChildOnce (n : Node) (identity : Int) : Node :=
  match dictGet? n.children identity with
  | some m =>
      if m ≤ 1 then { n with children := dictErase n.children identity }
      else { n with children := dictSet n.children identity (m - 1) }
  | none => n

/-- `Node.remove_parent_id`: delete the key unconditionally. -/
def removeParentId (n : Node) (identity : Int) : Node :=
  { n with parents := dictErase n.parents identity }

/-- `Node.remove_child_id`: delete the key unconditionally. -/
def removeChildId (n : Node) (identity : Int) : Node :=
  { n with children := dictErase n.children identity }

/-- `Node.indegree`: number of distinct parents. -/
def indegree (n : Node) : Nat := n.parents.length

/-- `Node.outdegree`: number of distinct children. -/
def outdegree (n : Node) : Nat := n.children.length

/-- `OpenDigraph.__init__`: ordered input/output interface lists and the
id → node map. -/
structure OpenDigraph where
  inputs : List Int
  outputs : List Int
  nodes : PyDict Node
deriving DecidableEq, Repr

/-- `OpenDigraph.empty()`. -/
def emptyDigraph : OpenDigraph := ⟨[], [], []⟩

/-- `OpenDigraph.get_node_ids`. -/
def getNodeIds (g : OpenDigraph) : List Int := dictKeys g.nodes

/-- `OpenDigraph.get_node_by_id`, which indexes `self.nodes[node_id]` and
hence raises `KeyError` on an absent id. -/
def getNodeByIdE (g : OpenDigraph) (nodeId : Int) : Except String Node :=
  match dictGet? g.nodes nodeId with
  | some n => .ok n
  | none => .error "KeyError"

/-- `OpenDigraph.get_nodes_by_ids`: the comprehension
`[self.nodes[i] for i in ids if i in self.nodes]`, which silently skips
absent ids. -/
def getNodesByIds (g : OpenDigraph) (ids : List Int) : List Node :=
  ids.filterMap (fun i => dictGet? g.nodes i)

/-- Replace the node stored under `i` (used for the in-place mutations of a
node object reached through the map). -/
def setNode (g : OpenDigraph) (i : Int) (n : Node) : OpenDigraph :=
  { g with nodes := dictSet g.nodes i n }

/-- Read-modify-write of the node object at `i`; raises `KeyError` when the
id is absent, as `self.nodes[i]` does. -/
def modifyNodeE (g : OpenDigraph) (i : Int) (f : Node → Node) :
    Except String OpenDigraph := do
  let n ← getNodeByIdE g i
  pure (setNode g i (f n))

/-- `OpenDigraph.set_inputs`: validates that every proposed input id exists,
then replaces the list. -/
def setInputs (g : OpenDigraph) (newInputs : List Int) :
    Except String OpenDigraph :=
  if newInputs.all (fun i => decide (dictMem g.nodes i)) then
    .ok { g with inputs := newInputs }
  else .error "A given ID doesn't exist"

/-- `OpenDigraph.new_id`: `max(used_ids) + 1` over inputs ++ outputs ++ node
keys, or `0` when nothing is in use. -/
def usedIds (g : OpenDigraph) : List Int :=
  g.inputs ++ g.outputs ++ getNodeIds g

/-- `OpenDigraph.new_id` itself. -/
def newId (g : OpenDigraph) : Int :=
  match usedIds g with
  | [] => 0
  | x :: xs => xs.foldl max x + 1

/-- `OpenDigraph.add_edge`: check both endpoints exist, then record the new
occurrence on the source's children and the target's parents. -/
def addEdge (g : OpenDigraph) (src tgt : Int) : Except String OpenDigraph :=
  if dictMem g.nodes src ∧ dictMem g.nodes tgt then do
    let g1 ← modifyNodeE g src (fun n => addChildId n tgt)
    modifyNodeE g1 tgt (fun n => addParentId n src)
  else .error "src or tgt doesn't exist"

/-- `OpenDigraph.remove_edge`, exactly as written in the source: it calls
`get_node_by_id(tgt).remove_child_once(src)` and
`get_node_by_id(src).remove_parent_once(tgt)` — i.e. it decrements the
records of the edge running from `tgt` to `src`. -/
def removeEdge (g : OpenDigraph) (src tgt : Int) : Except String OpenDigraph :=
  if dictMem g.nodes src ∧ dictMem g.nodes tgt then do
    let g1 ← modifyNodeE g tgt (fun n => removeChildOnce n src)
    modifyNodeE g1 src (fun n => removeParentOnce n tgt)
  else .error "src or tgt doesn't exist"

/-- `OpenDigraph.remove_parallel_edges`: delete the `src → tgt` entry on both
endpoints regardless of multiplicity. -/
def removeParallelEdges (g : OpenDigraph) (src tgt : Int) :
    Except String OpenDigraph :=
  if dictMem g.nodes src ∧ dictMem g.nodes tgt then do
    let g1 ← modifyNodeE g tgt (fun n => removeParentId n src)
    modifyNodeE g1 src (fun n => removeChildId n tgt)
  else .error "src or tgt doesn't exist"

/-- `OpenDigraph.add_node` restricted to the only form the circuit layer
uses, `add_node(label)` with no requested neighbours: allocate `new_id()`,
insert a fresh node, return its id. -/
def addNodePlain (g : OpenDigraph) (label : String) : Int × OpenDigraph :=
  let i := newId g
  (i, { g with nodes := dictSet g.nodes i ⟨i, label, [], []⟩ })

/-- `OpenDigraph.remove_id`: detach the node from every neighbour with
`remove_parallel_edges`, pop it from the map, then update an interface list.
The source updates `inputs` in *both* branches: when the removed id sat in
the output list it calls `set_inputs` on the filtered *output* list. -/
def removeId (g : OpenDigraph) (identity : Int) : Except String OpenDigraph :=
  if dictMem g.nodes identity then do
    let node ← getNodeByIdE g identity
    let parentIds := dictKeys node.parents
    let childIds := dictKeys node.children
    let g1 ← parentIds.foldlM (fun acc p => removeParallelEdges acc p identity) g
    let g2 ← childIds.foldlM (fun acc c => removeParallelEdges acc identity c) g1
    let g3 : OpenDigraph := { g2 with nodes := dictErase g2.nodes identity }
    if identity ∈ g3.inputs then
      setInputs g3 (g3.inputs.filter (fun n => n ≠ identity))
    else if identity ∈ g3.outputs then
      setInputs g3 (g3.outputs.filter (fun n => n ≠ identity))
    else .ok g3
  else .ok g

/-- `OpenDigraph.merge_nodes(a, b, label?)`: optionally relabel `a`, then for
each distinct child (then parent) of `b` add *one* occurrence between `a` and
that neighbour, and finally delete `b` from the node map — leaving every
occurrence of `b` inside its neighbours' maps untouched. -/
def mergeNodes (g : OpenDigraph) (nodeId1 nodeId2 : Int)
    (label : Option String) : Except String OpenDigraph :=
  if dictMem g.nodes nodeId1 ∧ dictMem g.nodes nodeId2 then do
    let g0 ← match label with
      | none => pure g
      | some l => modifyNodeE g nodeId1 (fun n => { n with label := l })
    let b0 ← getNodeByIdE g0 nodeId2
    let g1 ← (dictKeys b0.children).foldlM (fun acc childId => do
        let acc1 ← modifyNodeE acc nodeId1 (fun n => addChildId n childId)
        modifyNodeE acc1 childId (fun n => addParentId n nodeId1)) g0
    let b1 ← getNodeByIdE g1 nodeId2
    let g2 ← (dictKeys b1.parents).foldlM (fun acc parentId => do
        let acc1 ← modifyNodeE acc nodeId1 (fun n => addParentId n parentId)
        modifyNodeE acc1 parentId (fun n => addChildId n nodeId1)) g1
    pure { g2 with nodes := dictErase g2.nodes nodeId2 }
  else .error "Node IDs must be valid nodes in the graph"

/-! ## Leveled topological sort (`topological_sort`, `graph_depth`)

One `while co_leaves:` iteration builds `current_set` by visiting the frontier
in order: each frontier node is *first* added to `current_set` and *then* its
children are tested with
`all(parent_id not in current_set for parent_id in child.get_parents())`.
Python iterates the frontier as a `set`; the frontier is modelled as a
duplicate-free list visited in order (the claims below only involve singleton
frontiers, where no ordering question arises).  Fuel counts `while`
iterations; `none` models divergence. -/

/-- The body of one frontier visit: returns the extended `current_set` and
`new_co_leaves`, or the `KeyError` a dangling id would raise. -/
def topoVisit (g : OpenDigraph) (current newCo : List Int) (nodeId : Int) :
    Except String (List Int × List Int) := do
  let current1 := setInsert current nodeId
  let node ← getNodeByIdE g nodeId
  let newCo1 ← (dictKeys node.children).foldlM (fun acc childId => do
      let child ← getNodeByIdE g childId
      if (dictKeys child.parents).all (fun p => decide (p ∉ current1)) then
        pure (setInsert acc childId)
      else pure acc) newCo
  pure (current1, newCo1)

/-- The `while co_leaves:` loop of `topological_sort`. -/
def topoLoopF : Nat → OpenDigraph → List Int → List (List Int) →
    Option (Except String (List (List Int)))
  | _, _, [], acc => some (.ok acc)
  | 0, _, _ :: _, _ => none
  | fuel + 1, g, coLeaves@(_ :: _), acc =>
      match coLeaves.foldlM
          (fun st nodeId => topoVisit g st.1 st.2 nodeId) (([] : List Int), ([] : List Int)) with
      | .error e => some (.error e)
      | .ok (current, newCo) =>
          if newCo.isEmpty ∧ current.length < (getNodeIds g).length then
            some (.error "Graph is cyclic")
          else topoLoopF fuel g newCo (acc ++ [current])

/-- `OpenDigraph.topological_sort` with explicit fuel. -/
def topologicalSortF (fuel : Nat) (g : OpenDigraph) :
    Option (Except String (List (List Int))) :=
  topoLoopF fuel g (setOfList g.inputs) []

/-- `OpenDigraph.graph_depth`: length of the sequence the sort produced (the
`isinstance(..., str)` guard in the source is dead — a cyclic graph raises
instead — so the exception propagates). -/
def graphDepthF (fuel : Nat) (g : OpenDigraph) :
    Option (Except String Nat) :=
  (topologicalSortF fuel g).map (fun r => r.map List.length)

/-! ## Unit-weight Dijkstra (`min_distance`, `dijkstra`, `shortest_path`)

Distances are Python floats only through `float('inf')`; every stored value is
either that infinity or an integer, so a distance is an `Option Int` with
`none` for infinity.  `dijkstra` in both-directions mode writes
`neighbors[p] = parents[p]` through `neighbors = node.get_children()`, an
alias of the node's children dict: the graph is mutated, so the embedding
threads the graph and returns its final state. -/

/-- `a < b` on distances, with `none` as `float('inf')` (`inf < inf` is
false). -/
def distLt (a b : Option Int) : Bool :=
  match a, b with
  | none, _ => false
  | some _, none => true
  | some x, some y => decide (x < y)

/-- Distance plus one; infinity is absorbing. -/
def distAdd1 (a : Option Int) : Option Int := a.map (· + 1)

/-- `OpenDigraph.min_distance(dist, q)`: first strict minimum of `dist` over
`q` (starting from `float('inf')`), `none` when nothing beats infinity;
`KeyError` if a queued node has no distance. -/
def minDistance (dist : PyDict (Option Int)) (q : List Int) :
    Except String (Option Int) := do
  let st ← q.foldlM (fun (st : Option Int × Option Int) node => do
      match dictGet? dist node with
      | none => .error "KeyError"
      | some d => if distLt d st.1 then pure (d, some node) else pure st)
    ((none : Option Int), (none : Option Int))
  pure st.2

/-- Neighbour selection by direction.  `none` (both ways) *overwrites the
node's children dict in place* with every parent entry appended/overwritten,
and iterates that mutated dict; `some (-1)` reads parents, `some 1` reads
children, anything else raises. -/
def dijkstraNeighbors (g : OpenDigraph) (u : Int) (direction : Option Int) :
    Except String (PyDict Int × OpenDigraph) := do
  let node ← getNodeByIdE g u
  match direction with
  | none =>
      let merged := node.parents.foldl
        (fun ch p => dictSet ch p.1 p.2) node.children
      pure (merged, setNode g u { node with children := merged })
  | some d =>
      if d = -1 then pure (node.parents, g)
      else if d = 1 then pure (node.children, g)
      else .error "La direction doit être None, -1 ou 1"

/-- Relaxation of one neighbour `v` of `u`. -/
def dijkstraRelax (u : Int) (st : List Int × PyDict (Option Int) × PyDict Int)
    (v : Int) : Except String (List Int × PyDict (Option Int) × PyDict Int) := do
  let (q, dist, prev) := st
  let (q, dist) :=
    if decide (¬ dictMem dist v) then (q ++ [v], dictSet dist v none)
    else (q, dist)
  match dictGet? dist u, dictGet? dist v with
  | some du, some dv =>
      if distLt (distAdd1 du) dv then
        pure (q, dictSet dist v (distAdd1 du), dictSet prev v u)
      else pure (q, dist, prev)
  | _, _ => .error "KeyError"

/-- The `while len(q) > 0:` loop of `dijkstra`.  The emptiness test comes
before the fuel split, as in the source, so a drained queue returns whatever
fuel is left. -/
def dijkstraLoopF : Nat → OpenDigraph → Option Int → Option Int →
    List Int → PyDict (Option Int) → PyDict Int →
    Option (Except String (PyDict (Option Int) × PyDict Int × OpenDigraph))
  | fuel, g, direction, tgt, q, dist, prev =>
      match q with
      | [] => some (.ok (dist, prev, g))
      | _ :: _ =>
          match fuel with
          | 0 => none
          | fuel1 + 1 =>
              match minDistance dist q with
              | .error e => some (.error e)
              | .ok uOpt =>
                  if uOpt = tgt then some (.ok (dist, prev, g))
                  else
                    match uOpt with
                    | none => some (.error "KeyError")
                    | some u =>
                        match dijkstraNeighbors g u direction with
                        | .error e => some (.error e)
                        | .ok (neighbors, g1) =>
                            match (dictKeys neighbors).foldlM
                                (dijkstraRelax u) (q, dist, prev) with
                            | .error e => some (.error e)
                            | .ok (q1, dist1, prev1) =>
                                dijkstraLoopF fuel1 g1 direction tgt
                                  (removeFirst q1 u) dist1 prev1

/-- `OpenDigraph.dijkstra(src, direction, tgt)` with explicit fuel, returning
the distance map, the predecessor map and the (possibly mutated) graph. -/
def dijkstraF (fuel : Nat) (g : OpenDigraph) (src : Int)
    (direction : Option Int) (tgt : Option Int) :
    Option (Except String (PyDict (Option Int) × PyDict Int × OpenDigraph)) :=
  dijkstraLoopF fuel g direction tgt [src] [(src, some 0)] []

/-- The predecessor walk of `shortest_path`: prepend `prev[v]` until the
source is reached (`KeyError` when a link is missing). -/
def prevWalkF (fuel : Nat) (prev : PyDict Int) (u : Int) : Int → List Int →
    Option (Except String (List Int)) :=
  fun v acc =>
    if v = u then some (.ok acc)
    else
      match fuel with
      | 0 => none
      | fuel1 + 1 =>
          match dictGet? prev v with
          | none => some (.error "KeyError")
          | some w => prevWalkF fuel1 prev u w (w :: acc)

/-- `OpenDigraph.shortest_path(u, v)`: run `dijkstra(u, None, v)` and walk the
predecessor chain; returns the path and the graph state dijkstra left
behind. -/
def shortestPathF (fuel : Nat) (g : OpenDigraph) (u v : Int) :
    Option (Except String (List Int × OpenDigraph)) :=
  match dijkstraF fuel g u none (some v) with
  | none => none
  | some (.error e) => some (.error e)
  | some (.ok (dist, prev, g1)) =>
      (prevWalkF fuel prev u v [v]).map (fun r => r.map (fun p => (p, g1)))

/-! ## Boolean-circuit rewrite rules and `evaluate`

`BoolCirc` methods operate on the wrapped graph `self.g`, so they are
functions on `OpenDigraph` here.  Two source quirks are kept as written:
`node.get_parents()[0]` indexes the parents *dict* with the key `0` (the
result is a multiplicity, then used as a node id), and every rule detaches
parent edges through the swapped `remove_edge` above.  The NOT/XOR rules
match the non-ASCII labels `∼` (U+223C) and `ˆ` (U+02C6) that the source
spells. -/

/-- `BoolCirc.rule_not`. -/
def ruleNot (g : OpenDigraph) : Except String OpenDigraph :=
  (getNodeIds g).foldlM (fun acc nodeId => do
    let node ← getNodeByIdE acc nodeId
    if node.label = "∼" then do
      let pred ← match dictGet? node.parents 0 with
        | some m => pure m
        | none => .error "KeyError"
      let predNode ← getNodeByIdE acc pred
      let acc1 ←
        if predNode.label = "0" then
          modifyNodeE acc nodeId (fun n => { n with label := "1" })
        else if predNode.label = "1" then
          modifyNodeE acc nodeId (fun n => { n with label := "0" })
        else pure acc
      removeEdge acc1 pred nodeId
    else pure acc) g

/-- Shared body of the AND/OR/XOR rules: collect the labels of the node's
parents (`KeyError` on a dangling id). -/
def parentLabels (g : OpenDigraph) (node : Node) :
    Except String (List String) :=
  (dictKeys node.parents).mapM (fun n => (getNodeByIdE g n).map Node.label)

/-- Detach loop closing each binary-gate rule:
`for pred in node.get_parents(): self.g.remove_edge(pred, node_id)`. -/
def detachParents (g : OpenDigraph) (node : Node) (nodeId : Int) :
    Except String OpenDigraph :=
  (dictKeys node.parents).foldlM (fun a pred => removeEdge a pred nodeId) g

/-- `BoolCirc.rule_and`. -/
def ruleAnd (g : OpenDigraph) : Except String OpenDigraph :=
  (getNodeIds g).foldlM (fun acc nodeId => do
    let node ← getNodeByIdE acc nodeId
    if node.label = "&" then do
      let labels ← parentLabels acc node
      let acc1 ←
        if "0" ∈ labels then
          modifyNodeE acc nodeId (fun n => { n with label := "0" })
        else if "1" ∈ labels then
          match (labels.erase "1").head? with
          | some l => modifyNodeE acc nodeId (fun n => { n with label := l })
          | none => .error "IndexError"
        else pure acc
      detachParents acc1 node nodeId
    else pure acc) g

/-- `BoolCirc.rule_or`. -/
def ruleOr (g : OpenDigraph) : Except String OpenDigraph :=
  (getNodeIds g).foldlM (fun acc nodeId => do
    let node ← getNodeByIdE acc nodeId
    if node.label = "|" then do
      let labels ← parentLabels acc node
      let acc1 ←
        if "1" ∈ labels then
          modifyNodeE acc nodeId (fun n => { n with label := "1" })
        else if "0" ∈ labels then
          match (labels.erase "0").head? with
          | some l => modifyNodeE acc nodeId (fun n => { n with label := l })
          | none => .error "IndexError"
        else pure acc
      detachParents acc1 node nodeId
    else pure acc) g

/-- `BoolCirc.rule_xor`. -/
def ruleXor (g : OpenDigraph) : Except String OpenDigraph :=
  (getNodeIds g).foldlM (fun acc nodeId => do
    let node ← getNodeByIdE acc nodeId
    if node.label = "ˆ" then do
      let labels ← parentLabels acc node
      let acc1 ←
        if "0" ∈ labels then
          match (labels.erase "0").head? with
          | some l => modifyNodeE acc nodeId (fun n => { n with label := l })
          | none => .error "IndexError"
        else if "1" ∈ labels then
          match (labels.erase "1").head? with
          | some l =>
              modifyNodeE acc nodeId (fun n => { n with label := "∼" ++ l })
          | none => .error "IndexError"
        else pure acc
      detachParents acc1 node nodeId
    else pure acc) g

/-- `BoolCirc.rule_copy`. -/
def ruleCopy (g : OpenDigraph) : Except String OpenDigraph :=
  (getNodeIds g).foldlM (fun acc nodeId => do
    let node ← getNodeByIdE acc nodeId
    if indegree node = 1 ∧ outdegree node = 0 then do
      let pred ← match dictGet? node.parents 0 with
        | some m => pure m
        | none => .error "KeyError"
      let predNode ← getNodeByIdE acc pred
      let acc1 ← modifyNodeE acc nodeId
        (fun n => { n with label := predNode.label })
      removeEdge acc1 pred nodeId
    else pure acc) g

/-- `BoolCirc.rule_erase`: adds a self-edge `add_edge(pred, pred)` (both
arguments are `node.get_parents()[0]` in the source) and then removes the
node. -/
def ruleErase (g : OpenDigraph) : Except String OpenDigraph :=
  (getNodeIds g).foldlM (fun acc nodeId => do
    let node ← getNodeByIdE acc nodeId
    if indegree node = 1 ∧ outdegree node = 1 then do
      let pred ← match dictGet? node.parents 0 with
        | some m => pure m
        | none => .error "KeyError"
      let acc1 ← addEdge acc pred pred
      removeId acc1 nodeId
    else pure acc) g

/-- `l[::2]`. -/
def sliceEven {α : Type} : List α → List α
  | [] => []
  | [x] => [x]
  | x :: _ :: rest => x :: sliceEven rest

/-- `l[1::2]`. -/
def sliceOdd {α : Type} (l : List α) : List α :=
  sliceEven (l.drop 1)

/-- `BoolCirc.rule_involution`: pair the parents of a fan-in XOR into fresh
`ˆ` nodes, wiring each fresh node by the index `len(self.g.nodes) - 1`. -/
def ruleInvolution (g : OpenDigraph) : Except String OpenDigraph :=
  (getNodeIds g).foldlM (fun acc nodeId => do
    let node ← getNodeByIdE acc nodeId
    if node.label = "ˆ" ∧ indegree node > 2 then do
      let inputs ← (dictKeys node.parents).mapM (fun n => getNodeByIdE acc n)
      let evens := sliceEven inputs
      let odds := sliceOdd inputs
      (List.range evens.length).foldlM (fun a i => do
        let a1 := (addNodePlain a "ˆ").2
        let evenNode ← match evens.get? i with
          | some n => pure n
          | none => .error "IndexError"
        let a2 ← addEdge a1 evenNode.id ((a1.nodes.length : Int) - 1)
        let oddNode ← match odds.get? i with
          | some n => pure n
          | none => .error "IndexError"
        let a3 ← addEdge a2 oddNode.id ((a2.nodes.length : Int) - 1)
        if i = evens.length - 1 ∧ odds.length > evens.length then
          match odds.getLast? with
          | some lastNode => addEdge a3 lastNode.id ((a3.nodes.length : Int) - 1)
          | none => .error "IndexError"
        else pure a3) acc
    else pure acc) g

/-- The ids `evaluate` collects up front: nodes of outdegree `0`. -/
def outputNodesOf (g : OpenDigraph) : List Int :=
  (getNodeIds g).filter
    (fun i => (dictGet? g.nodes i).elim false (fun n => outdegree n == 0))

/-- One `for node_id in list(self.g.get_node_ids()):` pass of `evaluate`,
dispatching on the node's label and degrees unless the node sits in the
precomputed outdegree-0 set; returns the graph and the `transformed` flag. -/
def evalPass (g : OpenDigraph) (outs : List Int) :
    Except String (OpenDigraph × Bool) :=
  (getNodeIds g).foldlM (fun st nodeId => do
    let (acc, tr) := st
    let node ← getNodeByIdE acc nodeId
    if nodeId ∉ outs then
      if node.label = "∼" then (ruleNot acc).map (fun a => (a, true))
      else if node.label = "&" then (ruleAnd acc).map (fun a => (a, true))
      else if node.label = "|" then (ruleOr acc).map (fun a => (a, true))
      else if node.label = "ˆ" then (ruleXor acc).map (fun a => (a, true))
      else if indegree node = 1 ∧ outdegree node = 0 then
        (ruleCopy acc).map (fun a => (a, true))
      else if indegree node = 1 ∧ outdegree node = 1 then
        (ruleErase acc).map (fun a => (a, true))
      else if node.label = "ˆ" ∧ indegree node > 2 then
        (ruleInvolution acc).map (fun a => (a, true))
      else pure (acc, tr)
    else pure (acc, tr)) (g, false)

/-- The `while transformed:` loop of `evaluate`; fuel bounds the number of
passes, `none` models a diverging rewrite interaction. -/
def evaluateLoop : Nat → OpenDigraph → List Int →
    Option (Except String OpenDigraph)
  | 0, _, _ => none
  | fuel + 1, g, outs =>
      match evalPass g outs with
      | .error e => some (.error e)
      | .ok (g1, true) => evaluateLoop fuel g1 outs
      | .ok (g1, false) => some (.ok g1)

/-- `BoolCirc.evaluate` with explicit pass fuel. -/
def evaluateF (fuel : Nat) (g : OpenDigraph) :
    Option (Except String OpenDigraph) :=
  evaluateLoop fuel g (outputNodesOf g)

/-! ## Object identity: the heap model behind `copy`

`OpenDigraph.copy` builds `OpenDigraph(list(inputs), list(outputs),
list(self.get_nodes_by_ids(self.get_node_ids())))`: fresh top-level lists and
a fresh id → node dict, but the dict values are the *same* `Node` objects.
To express this sharing, node objects live in an explicit heap (a list of
`Node` values addressed by position) and a graph stores id → address. -/

/-- Heap of `Node` objects; the address of a node is its index. -/
abbrev Heap : Type := List Node

/-- An `OpenDigraph` whose node map holds references into a `Heap`. -/
structure HGraph where
  inputs : List Int
  outputs : List Int
  nodeRefs : List (Int × Nat)
deriving DecidableEq, Repr

/-- `OpenDigraph.copy` on the heap model: rebuild the interface lists and the
id → node dict (keyed by each node object's own id, as the constructor's
`{node.id: node for node in nodes}` does) without allocating any node. -/
def copyGraph (h : Heap) (g : HGraph) : HGraph :=
  { inputs := g.inputs
    outputs := g.outputs
    nodeRefs := g.nodeRefs.filterMap
      (fun p => (h.get? p.2).map (fun nd => (nd.id, p.2))) }

/-- Address of the node registered under `i`. -/
def refGet? (g : HGraph) (i : Int) : Option Nat :=
  (g.nodeRefs.find? (fun p => p.1 = i)).map Prod.snd

/-- `OpenDigraph.add_edge` on the heap model: mutates the two node objects in
place, so every graph holding those addresses observes the update. -/
def addEdgeH (h : Heap) (g : HGraph) (src tgt : Int) : Except String Heap :=
  match refGet? g src, refGet? g tgt with
  | some aSrc, some aTgt =>
      match h.get? aSrc with
      | none => .error "KeyError"
      | some nS =>
          let h1 := h.set aSrc (addChildId nS tgt)
          match h1.get? aTgt with
          | none => .error "KeyError"
          | some nT => .ok (h1.set aTgt (addParentId nT src))
  | _, _ => .error "src or tgt doesn't exist"

/-- What a graph denotes once its references are read back from the heap. -/
def readNodes (h : Heap) (g : HGraph) : List (Int × Option Node) :=
  g.nodeRefs.map (fun p => (p.1, h.get? p.2))

/-! ## Concrete inputs used by the claims -/

/-- The minimal well-formed acyclic open digraph: input node `0` feeding
output node `1` through a single edge. -/
def chainIO2 : OpenDigraph :=
  ⟨[0], [1], [(0, ⟨0, "i", [], [(1, 1)]⟩), (1, ⟨1, "o", [(0, 1)], []⟩)]⟩

/-- Two interface-free nodes with the single edge `0 → 1`. -/
def edge01 : OpenDigraph :=
  ⟨[], [], [(0, ⟨0, "", [], [(1, 1)]⟩), (1, ⟨1, "", [(0, 1)], []⟩)]⟩

/-- The four-node chain `0 → 1 → 2 → 3`. -/
def chainG4 : OpenDigraph :=
  ⟨[], [],
    [(0, ⟨0, "", [], [(1, 1)]⟩),
     (1, ⟨1, "", [(0, 1)], [(2, 1)]⟩),
     (2, ⟨2, "", [(1, 1)], [(3, 1)]⟩),
     (3, ⟨3, "", [(2, 1)], []⟩)]⟩

/-- Nodes `a = 0`, `b = 1`, `c = 2` with the double edge `b → c`. -/
def mergeG : OpenDigraph :=
  ⟨[], [],
    [(0, ⟨0, "a", [], []⟩),
     (1, ⟨1, "b", [], [(2, 2)]⟩),
     (2, ⟨2, "c", [(1, 2)], []⟩)]⟩

/-- The three-node circuit of the end-to-end property: `A = 0` labelled "1",
`B = 1` labelled "0", `C = 2` labelled "&", edges `A → C` and `B → C`. -/
def circABC : OpenDigraph :=
  ⟨[], [],
    [(0, ⟨0, "1", [], [(2, 1)]⟩),
     (1, ⟨1, "0", [], [(2, 1)]⟩),
     (2, ⟨2, "&", [(0, 1), (1, 1)], []⟩)]⟩

/-- Heap holding two isolated nodes at addresses `0` and `1`. -/
def heap0 : Heap := [⟨0, "", [], []⟩, ⟨1, "", [], []⟩]

/-- The graph over `heap0` registering both nodes, no interfaces. -/
def hg0 : HGraph := ⟨[], [], [(0, 0), (1, 1)]⟩

/-! ## Claims -/

/-- C1: the claim says `topological_sort` succeeds on every acyclic open
digraph with depth `1 +` the longest edge-count path.  On the code, each
frontier node is added to `current_set` *before* its children are tested
against `current_set`, so (invariant 5 holding) no child is ever eligible:
on the minimal acyclic well-formed open digraph `0 → 1` the sort raises
`Graph is cyclic` for every fuel, and `graph_depth` propagates the same
error instead of returning `2`. -/
theorem C1_topological_sort_raises_on_acyclic :
    (∀ fuel : Nat,
      topologicalSortF (fuel + 1) chainIO2 = some (.error "Graph is cyclic")) ∧
    (∀ fuel : Nat,
      graphDepthF (fuel + 1) chainIO2 = some (.error "Graph is cyclic")) :=
  ⟨fun _ => rfl, fun _ => rfl⟩

/-- C2: `copy` rebuilds the id → node dict over the *same* node objects
(`copyGraph heap0 hg0` is literally `hg0` again: every address is shared),
so adding the edge `0 → 1` through the copy rewrites the heap cells the
original references — the original's denoted nodes change from the isolated
pair to a connected one, refuting "mutating the copy never changes g". -/
theorem C2_copy_shares_node_objects :
    copyGraph heap0 hg0 = hg0 ∧
    (addEdgeH heap0 (copyGraph heap0 hg0) 0 1).map
        (fun h1 => readNodes h1 hg0) =
      .ok [(0, some ⟨0, "", [], [(1, 1)]⟩), (1, some ⟨1, "", [(0, 1)], []⟩)] ∧
    readNodes heap0 hg0 =
      [(0, some ⟨0, "", [], []⟩), (1, some ⟨1, "", [], []⟩)] :=
  ⟨rfl, rfl, rfl⟩

/-- C3: the claim says `remove_edge(src, tgt)` decrements the `src → tgt`
edge on both endpoints.  The code calls `tgt.remove_child_once(src)` and
`src.remove_parent_once(tgt)`, which touches only records of the reverse
edge: on the graph with the single edge `0 → 1`, `remove_edge(0, 1)` is a
complete no-op, while `remove_edge(1, 0)` is what actually deletes the
edge. -/
theorem C3_remove_edge_swaps_endpoints :
    removeEdge edge01 0 1 = .ok edge01 ∧
    removeEdge edge01 1 0 =
      .ok ⟨[], [], [(0, ⟨0, "", [], []⟩), (1, ⟨1, "", [], []⟩)]⟩ :=
  ⟨rfl, rfl⟩

/-- C4: the claim says removing a registered output node drops it from the
output list and leaves the input list alone.  In the output branch the code
calls `set_inputs` on the filtered *output* list: removing output `1` from
the graph `0 → 1` (inputs `[0]`, outputs `[1]`) leaves outputs `[1]` —
still naming the deleted node — and overwrites inputs with `[]`. -/
theorem C4_remove_id_updates_wrong_interface :
    removeId chainIO2 1 = .ok ⟨[], [1], [(0, ⟨0, "i", [], []⟩)]⟩ :=
  rfl

/-- C5: the claim says `merge_nodes(a, b)` transfers `b`'s edges onto `a`
with additive multiplicities and leaves no mention of `b` in any remaining
map.  On nodes `a = 0`, `b = 1`, `c = 2` with the double edge `b → c`, the
code gives `a` the child `c` with multiplicity `1` (not `2`, it calls
`add_child_id` once per distinct neighbour) and leaves `c`'s parents map
still holding `b` with its old multiplicity, alongside the new entry for
`a`. -/
theorem C5_merge_nodes_leaves_dangling_refs :
    mergeNodes mergeG 0 1 none =
      .ok ⟨[], [],
        [(0, ⟨0, "a", [], [(2, 1)]⟩),
         (2, ⟨2, "c", [(1, 2), (0, 1)], []⟩)]⟩ :=
  rfl

/-- C6: the claim (the spec's end-to-end property) expects `evaluate()` to
rewrite the AND gate to "0".  `evaluate` pre-collects every node of
outdegree `0` and never dispatches a rule from them; here that set is
exactly `{C}`, and `A`, `B` match no rule, so the very first pass applies
nothing, the loop stops, and `C` keeps the label "&". -/
theorem C6_evaluate_leaves_and_gate_unrewritten :
    (∀ fuel : Nat, evaluateF (fuel + 1) circABC = some (.ok circABC)) ∧
    (dictGet? circABC.nodes 2).map Node.label = some "&" :=
  ⟨fun _ => rfl, rfl⟩

/-- Lookup of the head key of a singleton distance map. -/
theorem minDistance_single (u : Int) :
    minDistance [(u, some 0)] [u] = .ok (some u) := by
  simp [minDistance, List.foldlM, dictGet?, distLt]
  rfl

/-- First loop iteration of `dijkstra(u, ..., tgt = u)`: the source is popped
first, equals the target, and the maps are returned before any neighbour is
touched. -/
theorem dijkstra_self_target (g : OpenDigraph) (u : Int) (fuel : Nat) :
    dijkstraF (fuel + 1) g u none (some u) =
      some (.ok ([(u, some 0)], [], g)) := by
  unfold dijkstraF
  rw [dijkstraLoopF]
  rw [minDistance_single]
  simp

/-- C7: `shortest_path(u, u)` returns `[u]` on every graph containing `u`
(the first Dijkstra pop is the target, before anything is mutated), and on
the chain `0 → 1 → 2 → 3` the path from `0` to `3` is `[0, 1, 2, 3]` with
the dijkstra distance map assigning `3` the distance `3`. -/
theorem C7_shortest_path_spec :
    (∀ (g : OpenDigraph) (u : Int) (fuel : Nat), dictMem g.nodes u →
        shortestPathF (fuel + 1) g u u = some (.ok ([u], g))) ∧
    (∀ fuel : Nat,
        (shortestPathF (fuel + 4) chainG4 0 3).map (fun r => r.map Prod.fst) =
          some (.ok [0, 1, 2, 3])) ∧
    (∀ fuel : Nat,
        (dijkstraF (fuel + 4) chainG4 0 none (some 3)).map
            (fun r => r.map (fun t => dictGet? t.1 3)) =
          some (.ok (some (some 3)))) := by
  refine ⟨?_, fun _ => rfl, fun _ => rfl⟩
  intro g u fuel hu
  unfold shortestPathF
  rw [dijkstra_self_target]
  simp [prevWalkF]
  rfl

/-- Closed instance of the quantified part of `C7_shortest_path_spec`. -/
theorem C7_shortest_path_witness :
    shortestPathF 1 chainG4 0 0 = some (.ok ([0], chainG4)) :=
  C7_shortest_path_spec.1 chainG4 0 0 (by decide)

/-- C8: the claim says `get_nodes_by_ids` fails with `InvalidReference` on an
absent id.  The comprehension filters with `if node_id in self.nodes`, so on
the empty graph and the absent id `5` it silently returns `[]` instead of
failing. -/
theorem C8_get_nodes_by_ids_silently_skips :
    getNodesByIds emptyDigraph [5] = [] := rfl

/-- C8 (amended): `get_node_by_id` on an absent id does fail (with a lookup
`KeyError`), while `get_nodes_by_ids` silently skips absent ids — appending
an absent id to the query changes nothing. -/
theorem C8_accessor_failure_amended (g : OpenDigraph) (i : Int)
    (ids : List Int) (h : dictGet? g.nodes i = none) :
    getNodeByIdE g i = .error "KeyError" ∧
    getNodesByIds g (ids ++ [i]) = getNodesByIds g ids := by
  constructor
  · unfold getNodeByIdE
    rw [h]
  · unfold getNodesByIds
    rw [List.filterMap_append]
    simp [h]

/-- Closed instance of `C8_accessor_failure_amended`. -/
theorem C8_accessor_failure_witness :
    getNodeByIdE chainIO2 5 = .error "KeyError" ∧
    getNodesByIds chainIO2 ([0, 1] ++ [5]) = getNodesByIds chainIO2 [0, 1] :=
  C8_accessor_failure_amended chainIO2 5 [0, 1] (by decide)

/-- The seed of a `max` fold is a lower bound of the result. -/
theorem le_foldl_max_init (x : Int) (xs : List Int) : x ≤ xs.foldl max x := by
  induction xs generalizing x with
  | nil => exact le_refl x
  | cons z zs ih =>
      exact le_trans (le_max_left x z) (by simpa using ih (max x z))

/-- Every listed value is bounded by the `max` fold. -/
theorem le_foldl_max (x : Int) (xs : List Int) :
    ∀ y ∈ x :: xs, y ≤ xs.foldl max x := by
  induction xs generalizing x with
  | nil =>
      intro y hy
      rw [List.mem_singleton] at hy
      subst hy
      exact le_refl y
  | cons z zs ih =>
      intro y hy
      simp only [List.foldl_cons]
      rcases List.mem_cons.mp hy with h1 | h1
      · subst h1
        exact le_trans (le_max_left y z) (le_foldl_max_init _ _)
      · rcases List.mem_cons.mp h1 with h2 | h2
        · subst h2
          exact le_trans (le_max_right x y) (le_foldl_max_init _ _)
        · exact ih (max x z) y (List.mem_cons_of_mem _ h2)

/-- The `max` fold is attained by one of the listed values. -/
theorem foldl_max_mem (x : Int) (xs : List Int) : xs.foldl max x ∈ x :: xs := by
  induction xs generalizing x with
  | nil => simp
  | cons y ys ih =>
      simp only [List.foldl_cons]
      rcases List.mem_cons.mp (ih (max x y)) with h1 | h1
      · rcases max_choice x y with hm | hm
        · rw [h1, hm]
          exact List.mem_cons_self _ _
        · rw [h1, hm]
          exact List.mem_cons_of_mem _ (List.mem_cons_self _ _)
      · exact List.mem_cons_of_mem _ (List.mem_cons_of_mem _ h1)

/-- C9: `new_id` is strictly above every id in use (inputs, outputs and node
keys), it is the least such integer whenever some id is in use, and on the
empty graph it returns `0`. -/
theorem C9_new_id_is_least_fresh (g : OpenDigraph) :
    (∀ i ∈ usedIds g, i < newId g) ∧
    (usedIds g ≠ [] → ∀ m : Int, (∀ i ∈ usedIds g, i < m) → newId g ≤ m) ∧
    newId emptyDigraph = 0 := by
  refine ⟨?_, ?_, rfl⟩
  · intro i hi
    rcases hu : usedIds g with _ | ⟨x, xs⟩
    · rw [hu] at hi
      cases hi
    · rw [hu] at hi
      have h1 := le_foldl_max x xs i hi
      have h2 : newId g = xs.foldl max x + 1 := by
        unfold newId
        rw [hu]
      omega
  · intro hne m hm
    rcases hu : usedIds g with _ | ⟨x, xs⟩
    · exact absurd hu hne
    · have hmem : xs.foldl max x ∈ usedIds g := by
        rw [hu]
        exact foldl_max_mem x xs
      have h1 := hm _ hmem
      have h2 : newId g = xs.foldl max x + 1 := by
        unfold newId
        rw [hu]
      omega

/-- Closed instance of `C9_new_id_is_least_fresh`. -/
theorem C9_new_id_witness :
    ((0 : Int) < newId chainIO2) ∧ newId chainIO2 ≤ 5 :=
  ⟨(C9_new_id_is_least_fresh chainIO2).1 0 (by decide),
   (C9_new_id_is_least_fresh chainIO2).2.1 (by decide) 5 (by decide)⟩

/-- C10: the claim says both-directions `dijkstra` and `shortest_path` are
read-only.  In both-directions mode `neighbors` aliases the popped node's
children dict and `neighbors[p] = parents[p]` writes through it: after
`dijkstra(0, None)` on `0 → 1`, node `1`'s children map has become
`{0: 1}` (it was empty), and after `shortest_path(0, 3)` on the chain
`0 → 1 → 2 → 3`, nodes `1` and `2` have their parents spliced into their
children maps. -/
theorem C10_dijkstra_and_shortest_path_mutate :
    ((dijkstraF 2 edge01 0 none none).map
          (fun r => r.map (fun t => t.2.2)) =
        some (.ok ⟨[], [],
          [(0, ⟨0, "", [], [(1, 1)]⟩),
           (1, ⟨1, "", [(0, 1)], [(0, 1)]⟩)]⟩)) ∧
    ((dijkstraF 9 edge01 0 none none).map
          (fun r => r.map (fun t => t.2.2)) =
        some (.ok ⟨[], [],
          [(0, ⟨0, "", [], [(1, 1)]⟩),
           (1, ⟨1, "", [(0, 1)], [(0, 1)]⟩)]⟩)) ∧
    (dictGet? edge01.nodes 1).map Node.children = some [] ∧
    (∀ fuel : Nat,
      (shortestPathF (fuel + 4) chainG4 0 3).map (fun r => r.map Prod.snd) =
        some (.ok ⟨[], [],
          [(0, ⟨0, "", [], [(1, 1)]⟩),
           (1, ⟨1, "", [(0, 1)], [(2, 1), (0, 1)]⟩),
           (2, ⟨2, "", [(1, 1)], [(3, 1), (1, 1)]⟩),
           (3, ⟨3, "", [(2, 1)], []⟩)]⟩)) ∧
    (dictGet? chainG4.nodes 1).map Node.children = some [(2, 1)] :=
  ⟨rfl, rfl, rfl, fun _ => rfl, rfl⟩
